import Mathlib

/-!
Shallow embedding of the Kisaan-Mitra agricultural advisory pipeline
(`Kisaan-Mitra.py`).  Python floats are modelled as rationals, Python
dicts with optional keys as structures of `Option` fields (for the
`daily` block, whose truthiness as a dict matters, as an association
list), and the outcome of an HTTP request as an explicit sum.
-/

namespace KisaanMitra

/-- The WMO weather-code table of `interpret_weather_code`
(source lines 11-19), as an association list mirroring the Python dict. -/
def weather_codes : List (Int × String) :=
  [(0, "Clear sky"), (1, "Mainly clear"), (2, "Partly cloudy"), (3, "Overcast"),
   (45, "Foggy"), (48, "Depositing rime fog"), (51, "Light drizzle"), (53, "Moderate drizzle"),
   (55, "Dense drizzle"), (61, "Slight rain"), (63, "Moderate rain"), (65, "Heavy rain"),
   (71, "Slight snow"), (73, "Moderate snow"), (75, "Heavy snow"), (77, "Snow grains"),
   (80, "Slight rain showers"), (81, "Moderate rain showers"), (82, "Violent rain showers"),
   (85, "Slight snow showers"), (86, "Heavy snow showers"),
   (95, "Thunderstorm"), (96, "Thunderstorm with slight hail"), (99, "Thunderstorm with heavy hail")]

/-- `interpret_weather_code` (source lines 9-20):
`weather_codes.get(code, "Unknown")`. -/
def interpret_weather_code (code : Int) : String :=
  (weather_codes.lookup code).getD "Unknown"

/-- `get_climate_zone` (source lines 22-45).  The Python computes a band
from `abs(lat)` with an early return of `'polar'`, refines the tropical
and subtropical bands from temperature/precipitation thresholds, and
falls through to the band name. -/
def get_climate_zone (lat temp precip : ℚ) : String :=
  if |lat| ≤ 23.5 then
    if 25 < temp ∧ 60 < precip then "tropical rainforest"
    else if 25 < temp then "tropical savanna"
    else "tropical"
  else if |lat| ≤ 35 then
    if 20 < precip then "subtropical monsoon"
    else "subtropical"
  else if |lat| ≤ 66 then
    "temperate"
  else
    "polar"

/-- Does the character list `s` start with `sub`? -/
def charsStartWith : List Char → List Char → Bool
  | [], _ => true
  | _ :: _, [] => false
  | c :: cs, d :: ds => c == d && charsStartWith cs ds

/-- Does `sub` occur as a contiguous run somewhere in `s`? -/
def charsContain (sub : List Char) : List Char → Bool
  | [] => charsStartWith sub []
  | c :: cs => charsStartWith sub (c :: cs) || charsContain sub cs

/-- Python's substring test `sub in s` on strings. -/
def strHasSub (s sub : String) : Bool :=
  charsContain sub.data s.data

/-- Python's `str.lower()`, modelled characterwise over the string's
character list (the labels this program lowercases are ASCII). -/
def strToLower (s : String) : String :=
  String.mk (s.data.map Char.toLower)

/-- The soil/crop record returned by `predict_soil_characteristics`
(source lines 54-92): the five dict literals share these keys. -/
structure SoilProfile where
  type : String
  fertility : String
  erosion : String
  crops : List String
  notes : String
deriving DecidableEq, Repr

/-- Dict literal at source lines 54-60. -/
def lateritic_profile : SoilProfile :=
  { type := "Lateritic Soil"
    fertility := "Medium (prone to leaching)"
    erosion := "High"
    crops := ["Rice", "Tropical Fruits", "Coffee", "Rubber"]
    notes := "Rich in iron oxides; needs careful erosion control and organic matter." }

/-- Dict literal at source lines 62-68. -/
def red_yellow_profile : SoilProfile :=
  { type := "Red and Yellow Soil"
    fertility := "Medium"
    erosion := "Medium to High"
    crops := ["Maize", "Millet", "Cotton", "Pulses"]
    notes := "Seasonal rainfall dependent; deep ploughing helps water retention." }

/-- Dict literal at source lines 70-76. -/
def subtropical_profile : SoilProfile :=
  { type := "Subtropical Loam/Alluvial Soil"
    fertility := "High"
    erosion := "Low to Medium"
    crops := ["Citrus fruits", "Wheat", "Vegetables", "Olives", "Grapes"]
    notes := "Very versatile soil; careful water management is key, especially during dry spells." }

/-- Dict literal at source lines 78-84. -/
def brown_earth_profile : SoilProfile :=
  { type := "Brown Earth/Forest Soil"
    fertility := "High"
    erosion := "Low"
    crops := ["Wheat", "Corn", "Soybeans", "Root crops", "Barley"]
    notes := "Well-suited for extensive farming; lime may be needed to adjust pH." }

/-- Dict literal at source lines 86-92. -/
def tundra_profile : SoilProfile :=
  { type := "Tundra Soil"
    fertility := "Low"
    erosion := "Medium"
    crops := ["Hardy vegetables (e.g., kale)", "Short-season berries"]
    notes := "Limited growing season; focus on raised beds and protecting from permafrost." }

/-- `predict_soil_characteristics` (source lines 48-92): latitude-band
cascade; within the tropical band a substring test on the lowercased
climate-zone label chooses between the Lateritic and Red/Yellow profiles. -/
def predict_soil_characteristics (lat : ℚ) (climate_zone : String) : SoilProfile :=
  let climate_zone_lower := strToLower climate_zone
  if |lat| ≤ 23.5 then
    if strHasSub climate_zone_lower "rainforest" = true ∨
        strHasSub climate_zone_lower "monsoon" = true then
      lateritic_profile
    else
      red_yellow_profile
  else if |lat| ≤ 35 then
    subtropical_profile
  else if |lat| ≤ 66 then
    brown_earth_profile
  else
    tundra_profile

/-- The `current` block of the forecast response, restricted to the five
fields the program reads (source line 147).  Each field is optional,
mirroring `dict.get` access with a default. -/
structure CurrentBlock where
  temperature_2m : Option ℚ
  relative_humidity_2m : Option ℚ
  precipitation : Option ℚ
  wind_speed_10m : Option ℚ
  weather_code : Option Int
deriving DecidableEq, Repr

/-- The empty dict `{}` used as default when `"current"` is absent. -/
def CurrentBlock.empty : CurrentBlock :=
  ⟨none, none, none, none, none⟩

/-- The parsed forecast response, restricted to the parts the program
reads: the optional `current` block and the optional `daily` block.  The
latter is kept as an association list of arrays because Python tests its
truthiness as a dict (`... if daily else 0`, source lines 226-227). -/
structure WeatherRaw where
  current : Option CurrentBlock
  daily : Option (List (String × List ℚ))
deriving DecidableEq, Repr

/-- `current = weather.get("current", {})` (source lines 179 and 224). -/
def current_of (w : WeatherRaw) : CurrentBlock :=
  w.current.getD CurrentBlock.empty

/-- `temp = current.get("temperature_2m", 0)` (source line 180). -/
def temp_of (w : WeatherRaw) : ℚ :=
  (current_of w).temperature_2m.getD 0

/-- `precip = current.get("precipitation", 0)` (source line 181). -/
def precip_of (w : WeatherRaw) : ℚ :=
  (current_of w).precipitation.getD 0

/-- `wind = current.get("wind_speed_10m", 0)` (source line 182). -/
def wind_of (w : WeatherRaw) : ℚ :=
  (current_of w).wind_speed_10m.getD 0

/-- `code = current.get("weather_code", 0)` (source line 183). -/
def code_of (w : WeatherRaw) : Int :=
  (current_of w).weather_code.getD 0

/-- Sentence appended at source line 173. -/
def soil_type_sentence (soil : SoilProfile) : String :=
  "Soil Type: This location features **" ++ soil.type ++ "**."

/-- Sentence appended at source line 176. -/
def erosion_sentence : String :=
  "⚠️ **Erosion Risk:** The high erosion risk means you should implement terrace farming or heavy mulching immediately."

/-- Sentence appended at source line 187. -/
def heat_sentence : String :=
  "🌡️ **Heat Alert:** Current high temperatures require increased **irrigation frequency** to prevent crop dehydration."

/-- Sentence appended at source line 189. -/
def cold_sentence : String :=
  "🥶 **Cool Weather:** Consider protecting vulnerable crops from cold shock, possibly using temporary covers."

/-- Sentence appended at source line 192. -/
def rain_sentence : String :=
  "☔ **Rainfall:** Due to current rain, postpone any major field work (ploughing, spraying) for at least 24 hours to prevent soil compaction."

/-- Sentence appended at source line 195. -/
def wind_sentence : String :=
  "🌬️ **Wind Warning:** Strong winds could cause lodging. Ensure taller crops are adequately staked or sheltered."

/-- Sentence appended at source line 199, with its leading newline. -/
def crops_sentence (soil : SoilProfile) : String :=
  "\n🌱 **Best Crop Strategy:** The most suitable crops are: **" ++
    String.intercalate ", " soil.crops ++ "**."

/-- Sentence appended at source line 200. -/
def fertility_sentence (soil : SoilProfile) : String :=
  "Fertility: The soil has **" ++ soil.fertility ++
    "** fertility. Supplement with organic compost before planting the next cycle."

/-- Fallback sentence at source line 203. -/
def stable_sentence : String :=
  "Conditions are stable. Proceed with routine maintenance and monitoring."

/-- The list `advice` built by `generate_advice` (source lines 162-203),
in append order, including the `if not advice` fallback. -/
def generate_advice_list (weather : WeatherRaw) (soil : SoilProfile) : List String :=
  let temp := temp_of weather
  let precip := precip_of weather
  let wind := wind_of weather
  let code := code_of weather
  let advice : List String :=
    [soil_type_sentence soil]
    ++ (if strHasSub soil.type "Lateritic Soil" = true ∨ soil.erosion = "High" then
          [erosion_sentence] else [])
    ++ (if 30 < temp then [heat_sentence]
        else if temp < 10 then [cold_sentence] else [])
    ++ (if 0 < precip ∨ code ∈ ([61, 63, 65, 80, 81, 82] : List Int) then
          [rain_sentence] else [])
    ++ (if 30 < wind then [wind_sentence] else [])
    ++ [crops_sentence soil, fertility_sentence soil]
  if advice = [] then [stable_sentence] else advice

/-- `generate_advice` (source line 205): `"\n".join(advice)`. -/
def generate_advice (weather : WeatherRaw) (soil : SoilProfile) : String :=
  String.intercalate "\n" (generate_advice_list weather soil)

/-- One entry of the geocoding `results` array (source lines 118-123):
`latitude`, `longitude` and `name` are indexed directly, `country` and
`admin1` are optional. -/
structure GeoResult where
  latitude : ℚ
  longitude : ℚ
  name : String
  country : Option String
  admin1 : Option String
deriving DecidableEq, Repr

/-- The parsed geocoding response: an optional `results` array
(`"results" in data` at source line 117). -/
structure GeoData where
  results : Option (List GeoResult)
deriving DecidableEq, Repr

/-- Outcome of one HTTP request plus JSON parse: either a parsed value
or an exception (network failure, timeout, non-2xx, parse error)
carrying its message. -/
inductive HttpOutcome (α : Type) where
  | ok (data : α)
  | error (cause : String)
deriving DecidableEq, Repr

/-- Display-name composition of `get_coordinates` (source lines 122-129):
`"name[, admin1][, country]"`, pieces appended only when non-empty. -/
def full_name (r : GeoResult) : String :=
  let country := r.country.getD ""
  let admin1 := r.admin1.getD ""
  let n₁ := r.name
  let n₂ := if admin1 ≠ "" then n₁ ++ ", " ++ admin1 else n₁
  if country ≠ "" then n₂ ++ ", " ++ country else n₂

/-- `get_coordinates` (source lines 103-137): on a parsed response with a
non-empty `results` array, the first result's coordinates and display
name; on zero/absent results the `else: return None` branch; on any
exception the `except` handler prints and returns `None`. -/
def get_coordinates (resp : HttpOutcome GeoData) : Option (ℚ × ℚ × String) :=
  match resp with
  | .error _ => none
  | .ok data =>
    match data.results with
    | some (result :: _) => some (result.latitude, result.longitude, full_name result)
    | some [] => none
    | none => none

/-- `fetch_combined_data` (source lines 139-160): the parsed response on
success, `None` on any exception. -/
def fetch_combined_data (resp : HttpOutcome WeatherRaw) : Option WeatherRaw :=
  match resp with
  | .ok data => some data
  | .error _ => none

/-- The daily-series extraction of the pipeline (source lines 225-227):
`daily.get(key, [0])[0] if daily else 0` after
`daily = raw.get("daily", {})`.  `none` models the `IndexError` Python
raises when `key` is present but holds an empty array. -/
def extract_daily_value (raw : WeatherRaw) (key : String) : Option ℚ :=
  let daily := raw.daily.getD []
  if daily ≠ [] then
    match (daily.lookup key).getD [0] with
    | [] => none
    | x :: _ => some x
  else
    some 0

/-- A value of the report's weather summary: either a number carried
through from the response or a literal default string. -/
inductive SVal where
  | num (q : ℚ)
  | str (s : String)
deriving DecidableEq, Repr

/-- The `weather` sub-dict of the final report (source lines 235-240
and 249-256), except `climate_zone` which is assembled separately. -/
structure WeatherSummary where
  temperature : SVal
  humidity : SVal
  precipitation : ℚ
  wind_speed : SVal
  condition : String
deriving DecidableEq, Repr

/-- The current-weather summary extraction (source lines 235-240):
temperature, humidity and wind speed default to `"N/A"`, precipitation
to `0`, and the weather code to `0` before being interpreted. -/
def extract_summary (raw : WeatherRaw) : WeatherSummary :=
  let current := current_of raw
  { temperature := match current.temperature_2m with
      | some q => SVal.num q
      | none => SVal.str "N/A"
    humidity := match current.relative_humidity_2m with
      | some q => SVal.num q
      | none => SVal.str "N/A"
    precipitation := current.precipitation.getD 0
    wind_speed := match current.wind_speed_10m with
      | some q => SVal.num q
      | none => SVal.str "N/A"
    condition := interpret_weather_code (current.weather_code.getD 0) }

/-- The final report dict (source lines 246-259). -/
structure Report where
  location : String
  latitude : ℚ
  longitude : ℚ
  weather : WeatherSummary
  climate_zone : String
  soil : SoilProfile
  advice : String
deriving DecidableEq, Repr

/-- Result of `get_agricultural_recommendation`: a report, the
`{"error": ...}` dict, or an uncaught exception. -/
inductive PipelineResult where
  | report (r : Report)
  | errorResult (msg : String)
  | raised (msg : String)
deriving DecidableEq, Repr

/-- `get_agricultural_recommendation` (source lines 207-259), as a
function of the location string and the outcomes of the two HTTP
requests it performs. -/
def get_agricultural_recommendation (location : String)
    (geo_resp : HttpOutcome GeoData) (weather_resp : HttpOutcome WeatherRaw) :
    PipelineResult :=
  match get_coordinates geo_resp with
  | none => .errorResult ("Could not find location: " ++ location)
  | some (lat, lon, location_name) =>
    match fetch_combined_data weather_resp with
    | none => .errorResult "Could not fetch weather data"
    | some raw =>
      match extract_daily_value raw "temperature_2m_max",
            extract_daily_value raw "precipitation_sum" with
      | some temp_max_daily, some precip_sum_daily =>
        let climate_zone := get_climate_zone lat temp_max_daily precip_sum_daily
        let soil_info := predict_soil_characteristics lat climate_zone
        let final_advice := generate_advice raw soil_info
        .report
          { location := location_name
            latitude := lat
            longitude := lon
            weather := extract_summary raw
            climate_zone := climate_zone
            soil := soil_info
            advice := final_advice }
      | _, _ => .raised "IndexError: list index out of range"

/-! ### Helper lemmas -/

theorem data_head_append (a b : String) (c : Char) (h : a.data.head? = some c) :
    (a ++ b).data.head? = some c := by
  rw [String.data_append]
  cases ha : a.data with
  | nil => rw [ha] at h; exact absurd h (by simp)
  | cons x xs => rw [ha] at h; simpa using h

theorem ne_of_data_head {a b : String} {c d : Char} (ha : a.data.head? = some c)
    (hb : b.data.head? = some d) (hcd : c ≠ d) : a ≠ b := by
  intro e
  rw [e, hb] at ha
  exact hcd (Option.some.inj ha).symm

theorem soil_type_sentence_head (s : SoilProfile) :
    (soil_type_sentence s).data.head? = some 'S' :=
  data_head_append _ _ _ (data_head_append _ _ _ (by decide))

theorem crops_sentence_head (s : SoilProfile) :
    (crops_sentence s).data.head? = some '\n' :=
  data_head_append _ _ _ (data_head_append _ _ _ (by decide))

theorem fertility_sentence_head (s : SoilProfile) :
    (fertility_sentence s).data.head? = some 'F' :=
  data_head_append _ _ _ (data_head_append _ _ _ (by decide))

theorem erosion_sentence_ne (s : SoilProfile) :
    erosion_sentence ≠ soil_type_sentence s ∧ erosion_sentence ≠ crops_sentence s ∧
      erosion_sentence ≠ fertility_sentence s :=
  ⟨ne_of_data_head (c := '⚠') (d := 'S') (by decide) (soil_type_sentence_head s) (by decide),
   ne_of_data_head (c := '⚠') (d := '\n') (by decide) (crops_sentence_head s) (by decide),
   ne_of_data_head (c := '⚠') (d := 'F') (by decide) (fertility_sentence_head s) (by decide)⟩

theorem heat_sentence_ne (s : SoilProfile) :
    heat_sentence ≠ soil_type_sentence s ∧ heat_sentence ≠ crops_sentence s ∧
      heat_sentence ≠ fertility_sentence s :=
  ⟨ne_of_data_head (c := '🌡') (d := 'S') (by decide) (soil_type_sentence_head s) (by decide),
   ne_of_data_head (c := '🌡') (d := '\n') (by decide) (crops_sentence_head s) (by decide),
   ne_of_data_head (c := '🌡') (d := 'F') (by decide) (fertility_sentence_head s) (by decide)⟩

theorem cold_sentence_ne (s : SoilProfile) :
    cold_sentence ≠ soil_type_sentence s ∧ cold_sentence ≠ crops_sentence s ∧
      cold_sentence ≠ fertility_sentence s :=
  ⟨ne_of_data_head (c := '🥶') (d := 'S') (by decide) (soil_type_sentence_head s) (by decide),
   ne_of_data_head (c := '🥶') (d := '\n') (by decide) (crops_sentence_head s) (by decide),
   ne_of_data_head (c := '🥶') (d := 'F') (by decide) (fertility_sentence_head s) (by decide)⟩

theorem rain_sentence_ne (s : SoilProfile) :
    rain_sentence ≠ soil_type_sentence s ∧ rain_sentence ≠ crops_sentence s ∧
      rain_sentence ≠ fertility_sentence s :=
  ⟨ne_of_data_head (c := '☔') (d := 'S') (by decide) (soil_type_sentence_head s) (by decide),
   ne_of_data_head (c := '☔') (d := '\n') (by decide) (crops_sentence_head s) (by decide),
   ne_of_data_head (c := '☔') (d := 'F') (by decide) (fertility_sentence_head s) (by decide)⟩

theorem wind_sentence_ne (s : SoilProfile) :
    wind_sentence ≠ soil_type_sentence s ∧ wind_sentence ≠ crops_sentence s ∧
      wind_sentence ≠ fertility_sentence s :=
  ⟨ne_of_data_head (c := '🌬') (d := 'S') (by decide) (soil_type_sentence_head s) (by decide),
   ne_of_data_head (c := '🌬') (d := '\n') (by decide) (crops_sentence_head s) (by decide),
   ne_of_data_head (c := '🌬') (d := 'F') (by decide) (fertility_sentence_head s) (by decide)⟩

theorem stable_sentence_ne (s : SoilProfile) :
    stable_sentence ≠ soil_type_sentence s ∧ stable_sentence ≠ crops_sentence s ∧
      stable_sentence ≠ fertility_sentence s :=
  ⟨ne_of_data_head (c := 'C') (d := 'S') (by decide) (soil_type_sentence_head s) (by decide),
   ne_of_data_head (c := 'C') (d := '\n') (by decide) (crops_sentence_head s) (by decide),
   ne_of_data_head (c := 'C') (d := 'F') (by decide) (fertility_sentence_head s) (by decide)⟩

theorem mem_cond_singleton (x y : String) (c : Prop) [Decidable c] :
    x ∈ (if c then [y] else []) ↔ (x = y ∧ c) := by
  split_ifs with h <;> simp [h]

theorem mem_heat_cold (x : String) (t : ℚ) :
    x ∈ (if 30 < t then [heat_sentence] else if t < 10 then [cold_sentence] else [])
      ↔ ((x = heat_sentence ∧ 30 < t) ∨ (x = cold_sentence ∧ ¬ 30 < t ∧ t < 10)) := by
  split_ifs <;> simp [*]

set_option maxHeartbeats 1600000 in
/-- Full characterization of membership in the advice list built by
`generate_advice`. -/
theorem mem_generate_advice_list (w : WeatherRaw) (s : SoilProfile) (x : String) :
    x ∈ generate_advice_list w s ↔
      (x = soil_type_sentence s
       ∨ (x = erosion_sentence ∧
            (strHasSub s.type "Lateritic Soil" = true ∨ s.erosion = "High"))
       ∨ (x = heat_sentence ∧ 30 < temp_of w)
       ∨ (x = cold_sentence ∧ ¬ 30 < temp_of w ∧ temp_of w < 10)
       ∨ (x = rain_sentence ∧
            (0 < precip_of w ∨ code_of w ∈ ([61, 63, 65, 80, 81, 82] : List Int)))
       ∨ (x = wind_sentence ∧ 30 < wind_of w)
       ∨ x = crops_sentence s
       ∨ x = fertility_sentence s) := by
  unfold generate_advice_list
  rw [if_neg (by simp)]
  simp only [List.mem_append, List.mem_cons, List.not_mem_nil, List.mem_singleton,
    mem_cond_singleton, mem_heat_cold, or_false]
  tauto

theorem soil_type_sentence_mem (w : WeatherRaw) (s : SoilProfile) :
    soil_type_sentence s ∈ generate_advice_list w s := by
  rw [mem_generate_advice_list]
  exact Or.inl rfl

theorem crops_sentence_mem (w : WeatherRaw) (s : SoilProfile) :
    crops_sentence s ∈ generate_advice_list w s := by
  rw [mem_generate_advice_list]
  tauto

theorem fertility_sentence_mem (w : WeatherRaw) (s : SoilProfile) :
    fertility_sentence s ∈ generate_advice_list w s := by
  rw [mem_generate_advice_list]
  tauto

theorem erosion_mem_iff (w : WeatherRaw) (s : SoilProfile) :
    erosion_sentence ∈ generate_advice_list w s ↔
      (strHasSub s.type "Lateritic Soil" = true ∨ s.erosion = "High") := by
  rw [mem_generate_advice_list]
  have h := erosion_sentence_ne s
  simp [h.1, h.2.1, h.2.2, (by decide : erosion_sentence ≠ heat_sentence),
    (by decide : erosion_sentence ≠ cold_sentence),
    (by decide : erosion_sentence ≠ rain_sentence),
    (by decide : erosion_sentence ≠ wind_sentence)]

theorem heat_mem_iff (w : WeatherRaw) (s : SoilProfile) :
    heat_sentence ∈ generate_advice_list w s ↔ 30 < temp_of w := by
  rw [mem_generate_advice_list]
  have h := heat_sentence_ne s
  simp [h.1, h.2.1, h.2.2, (by decide : heat_sentence ≠ erosion_sentence),
    (by decide : heat_sentence ≠ cold_sentence),
    (by decide : heat_sentence ≠ rain_sentence),
    (by decide : heat_sentence ≠ wind_sentence)]

theorem cold_mem_iff (w : WeatherRaw) (s : SoilProfile) :
    cold_sentence ∈ generate_advice_list w s ↔ temp_of w < 10 := by
  rw [mem_generate_advice_list]
  have h := cold_sentence_ne s
  have harith : temp_of w < 10 → ¬ 30 < temp_of w := by intro h₁; linarith
  simp only [h.1, h.2.1, h.2.2, (by decide : cold_sentence ≠ erosion_sentence),
    (by decide : cold_sentence ≠ heat_sentence),
    (by decide : cold_sentence ≠ rain_sentence),
    (by decide : cold_sentence ≠ wind_sentence), false_and, false_or, or_false,
    true_and, eq_self_iff_true]
  constructor
  · rintro ⟨_, h₂⟩; exact h₂
  · intro h₂; exact ⟨harith h₂, h₂⟩

theorem rain_mem_iff (w : WeatherRaw) (s : SoilProfile) :
    rain_sentence ∈ generate_advice_list w s ↔
      (0 < precip_of w ∨ code_of w ∈ ([61, 63, 65, 80, 81, 82] : List Int)) := by
  rw [mem_generate_advice_list]
  have h := rain_sentence_ne s
  simp [h.1, h.2.1, h.2.2, (by decide : rain_sentence ≠ erosion_sentence),
    (by decide : rain_sentence ≠ heat_sentence),
    (by decide : rain_sentence ≠ cold_sentence),
    (by decide : rain_sentence ≠ wind_sentence)]

theorem wind_mem_iff (w : WeatherRaw) (s : SoilProfile) :
    wind_sentence ∈ generate_advice_list w s ↔ 30 < wind_of w := by
  rw [mem_generate_advice_list]
  have h := wind_sentence_ne s
  simp [h.1, h.2.1, h.2.2, (by decide : wind_sentence ≠ erosion_sentence),
    (by decide : wind_sentence ≠ heat_sentence),
    (by decide : wind_sentence ≠ cold_sentence),
    (by decide : wind_sentence ≠ rain_sentence)]

theorem stable_not_mem (w : WeatherRaw) (s : SoilProfile) :
    stable_sentence ∉ generate_advice_list w s := by
  rw [mem_generate_advice_list]
  have h := stable_sentence_ne s
  simp [h.1, h.2.1, h.2.2, (by decide : stable_sentence ≠ erosion_sentence),
    (by decide : stable_sentence ≠ heat_sentence),
    (by decide : stable_sentence ≠ cold_sentence),
    (by decide : stable_sentence ≠ rain_sentence),
    (by decide : stable_sentence ≠ wind_sentence)]

/-! ### Claim theorems -/

/-- C6: the weather-code label function is total over the integers: every
code of the fixed WMO table returns its documented label (in particular
`61 ↦ "Slight rain"`), and every integer outside the table returns the
literal `"Unknown"` (in particular `9999 ↦ "Unknown"`). -/
theorem c6_weather_code_total :
    interpret_weather_code 61 = "Slight rain"
    ∧ interpret_weather_code 9999 = "Unknown"
    ∧ (∀ (c : Int) (l : String), (c, l) ∈ weather_codes → interpret_weather_code c = l)
    ∧ (∀ c : Int,
        c ∉ ([0, 1, 2, 3, 45, 48, 51, 53, 55, 61, 63, 65, 71, 73, 75, 77, 80, 81, 82,
              85, 86, 95, 96, 99] : List Int) →
        interpret_weather_code c = "Unknown") := by
  refine ⟨by decide, by decide, ?_, ?_⟩
  · intro c l h
    fin_cases h <;> decide
  · intro c h
    simp only [List.mem_cons, List.not_mem_nil, not_or, or_false] at h
    have hl : weather_codes.lookup c = none := by
      rw [List.lookup_eq_none_iff]
      intro p hp
      fin_cases hp <;> simp_all [bne_iff_ne]
    simp [interpret_weather_code, hl]

/-- C6 witness: the table row 95 and the absent code 50, via
`c6_weather_code_total`. -/
theorem c6_weather_code_total_witness :
    interpret_weather_code 95 = "Thunderstorm" ∧ interpret_weather_code 50 = "Unknown" :=
  ⟨c6_weather_code_total.2.2.1 95 "Thunderstorm" (by decide),
   c6_weather_code_total.2.2.2 50 (by decide)⟩

/-- C4: `get_climate_zone` follows the ordered algorithm of the spec:
polar band first, then the tropical refinement by temperature and
precipitation, the subtropical refinement by precipitation, and
`temperate` otherwise; including the five concrete spec examples. -/
theorem c4_climate_zone_algorithm :
    (∀ lat temp precip : ℚ,
      (66 < |lat| → get_climate_zone lat temp precip = "polar")
      ∧ (|lat| ≤ 23.5 → get_climate_zone lat temp precip =
          (if 25 < temp ∧ 60 < precip then "tropical rainforest"
           else if 25 < temp then "tropical savanna" else "tropical"))
      ∧ (23.5 < |lat| → |lat| ≤ 35 → get_climate_zone lat temp precip =
          (if 20 < precip then "subtropical monsoon" else "subtropical"))
      ∧ (35 < |lat| → |lat| ≤ 66 → get_climate_zone lat temp precip = "temperate"))
    ∧ get_climate_zone 20 30 70 = "tropical rainforest"
    ∧ get_climate_zone 20 30 10 = "tropical savanna"
    ∧ get_climate_zone 20 10 10 = "tropical"
    ∧ (∀ t : ℚ, get_climate_zone 30 t 25 = "subtropical monsoon")
    ∧ (∀ t : ℚ, get_climate_zone 30 t 5 = "subtropical") := by
  refine ⟨?_, by norm_num [get_climate_zone], by norm_num [get_climate_zone],
    by norm_num [get_climate_zone], fun t => by norm_num [get_climate_zone],
    fun t => by norm_num [get_climate_zone]⟩
  intro lat temp precip
  refine ⟨?_, ?_, ?_, ?_⟩
  · intro h
    unfold get_climate_zone
    rw [if_neg (by linarith), if_neg (by linarith), if_neg (by linarith)]
  · intro h
    unfold get_climate_zone
    rw [if_pos h]
  · intro h₁ h₂
    unfold get_climate_zone
    rw [if_neg (by linarith), if_pos h₂]
  · intro h₁ h₂
    unfold get_climate_zone
    rw [if_neg (by linarith), if_neg (by linarith), if_pos h₂]

/-- C4 witness: the polar and temperate branches at concrete latitudes,
via `c4_climate_zone_algorithm`. -/
theorem c4_climate_zone_algorithm_witness :
    get_climate_zone 70 20 50 = "polar" ∧ get_climate_zone 50 20 50 = "temperate" :=
  ⟨(c4_climate_zone_algorithm.1 70 20 50).1 (by norm_num),
   (c4_climate_zone_algorithm.1 50 20 50).2.2.2 (by norm_num) (by norm_num)⟩

/-- C3: `predict_soil_characteristics` returns exactly one of the five
fixed profiles, selected by the stated policy: Lateritic iff in the
tropical band with "rainforest" or "monsoon" in the lowercased zone;
Red and Yellow iff in the tropical band otherwise; the subtropical,
temperate and polar bands ignore the zone label entirely (so latitude 30
with zone "subtropical monsoon" still yields the subtropical profile). -/
theorem c3_soil_lookup_policy :
    (∀ (lat : ℚ) (zone : String),
      (predict_soil_characteristics lat zone = lateritic_profile ↔
        |lat| ≤ 23.5 ∧ (strHasSub (strToLower zone) "rainforest" = true ∨
          strHasSub (strToLower zone) "monsoon" = true))
      ∧ (predict_soil_characteristics lat zone = red_yellow_profile ↔
        |lat| ≤ 23.5 ∧ ¬(strHasSub (strToLower zone) "rainforest" = true ∨
          strHasSub (strToLower zone) "monsoon" = true))
      ∧ (predict_soil_characteristics lat zone = subtropical_profile ↔
        23.5 < |lat| ∧ |lat| ≤ 35)
      ∧ (predict_soil_characteristics lat zone = brown_earth_profile ↔
        35 < |lat| ∧ |lat| ≤ 66)
      ∧ (predict_soil_characteristics lat zone = tundra_profile ↔ 66 < |lat|))
    ∧ predict_soil_characteristics 30 "subtropical monsoon" = subtropical_profile
    ∧ (predict_soil_characteristics 10 "tropical rainforest").type = "Lateritic Soil"
    ∧ (predict_soil_characteristics 10 "tropical savanna").type = "Red and Yellow Soil" := by
  refine ⟨?_, by norm_num [predict_soil_characteristics], ?_, ?_⟩
  · intro lat zone
    by_cases h₁ : |lat| ≤ 23.5
    · have ha : ¬ 23.5 < |lat| := not_lt.2 h₁
      have hb : ¬ 35 < |lat| := not_lt.2 (h₁.trans (by norm_num))
      have hc : ¬ 66 < |lat| := not_lt.2 (h₁.trans (by norm_num))
      by_cases h₂ : strHasSub (strToLower zone) "rainforest" = true ∨
          strHasSub (strToLower zone) "monsoon" = true
      · have hp : predict_soil_characteristics lat zone = lateritic_profile := by
          unfold predict_soil_characteristics
          rw [if_pos h₁, if_pos h₂]
        rw [hp]
        simp [h₁, h₂, ha, hb, hc,
          (by decide : lateritic_profile ≠ red_yellow_profile),
          (by decide : lateritic_profile ≠ subtropical_profile),
          (by decide : lateritic_profile ≠ brown_earth_profile),
          (by decide : lateritic_profile ≠ tundra_profile)]
      · have hp : predict_soil_characteristics lat zone = red_yellow_profile := by
          unfold predict_soil_characteristics
          rw [if_pos h₁, if_neg h₂]
        rw [hp]
        simp [h₁, h₂, ha, hb, hc,
          (by decide : red_yellow_profile ≠ lateritic_profile),
          (by decide : red_yellow_profile ≠ subtropical_profile),
          (by decide : red_yellow_profile ≠ brown_earth_profile),
          (by decide : red_yellow_profile ≠ tundra_profile)]
    · by_cases h₃ : |lat| ≤ 35
      · have ha : 23.5 < |lat| := not_le.1 h₁
        have hb : ¬ 35 < |lat| := not_lt.2 h₃
        have hc : ¬ 66 < |lat| := not_lt.2 (h₃.trans (by norm_num))
        have hp : predict_soil_characteristics lat zone = subtropical_profile := by
          unfold predict_soil_characteristics
          rw [if_neg h₁, if_pos h₃]
        rw [hp]
        simp [h₁, h₃, ha, hb, hc,
          (by decide : subtropical_profile ≠ lateritic_profile),
          (by decide : subtropical_profile ≠ red_yellow_profile),
          (by decide : subtropical_profile ≠ brown_earth_profile),
          (by decide : subtropical_profile ≠ tundra_profile)]
      · by_cases h₄ : |lat| ≤ 66
        · have ha : 35 < |lat| := not_le.1 h₃
          have hb : ¬ 66 < |lat| := not_lt.2 h₄
          have hp : predict_soil_characteristics lat zone = brown_earth_profile := by
            unfold predict_soil_characteristics
            rw [if_neg h₁, if_neg h₃, if_pos h₄]
          rw [hp]
          simp [h₁, h₃, h₄, ha, hb,
            (by decide : brown_earth_profile ≠ lateritic_profile),
            (by decide : brown_earth_profile ≠ red_yellow_profile),
            (by decide : brown_earth_profile ≠ subtropical_profile),
            (by decide : brown_earth_profile ≠ tundra_profile)]
        · have ha : 66 < |lat| := not_le.1 h₄
          have hp : predict_soil_characteristics lat zone = tundra_profile := by
            unfold predict_soil_characteristics
            rw [if_neg h₁, if_neg h₃, if_neg h₄]
          rw [hp]
          simp [h₁, h₃, h₄, ha,
            (by decide : tundra_profile ≠ lateritic_profile),
            (by decide : tundra_profile ≠ red_yellow_profile),
            (by decide : tundra_profile ≠ subtropical_profile),
            (by decide : tundra_profile ≠ brown_earth_profile)]
  · have h : predict_soil_characteristics 10 "tropical rainforest" = lateritic_profile := by
      norm_num [predict_soil_characteristics]
      decide
    rw [h]
    rfl
  · have h : predict_soil_characteristics 10 "tropical savanna" = red_yellow_profile := by
      norm_num [predict_soil_characteristics]
      decide
    rw [h]
    rfl

/-- C3 witness: the temperate and polar soil rows at concrete latitudes,
via `c3_soil_lookup_policy`. -/
theorem c3_soil_lookup_policy_witness :
    predict_soil_characteristics 50 "temperate" = brown_earth_profile
    ∧ predict_soil_characteristics 80 "polar" = tundra_profile :=
  ⟨((c3_soil_lookup_policy.1 50 "temperate").2.2.2.1).2 ⟨by norm_num, by norm_num⟩,
   ((c3_soil_lookup_policy.1 80 "polar").2.2.2.2).2 (by norm_num)⟩

set_option maxRecDepth 8000 in
/-- C5: the advisory composer emits its sentences in the fixed rule order
joined by newlines (the best-crop sentence carrying its leading empty
line); heat and cold sentences are mutually exclusive and absent for
temperatures in [10,30]; the rainfall sentence appears iff current
precipitation is positive or the weather code is a rain code; the wind
sentence iff wind exceeds 30; including both concrete spec examples. -/
theorem c5_compose_rule_order :
    (∀ (w : WeatherRaw) (s : SoilProfile),
      (heat_sentence ∈ generate_advice_list w s ↔ 30 < temp_of w)
      ∧ (cold_sentence ∈ generate_advice_list w s ↔ temp_of w < 10)
      ∧ ¬(heat_sentence ∈ generate_advice_list w s ∧
            cold_sentence ∈ generate_advice_list w s)
      ∧ (10 ≤ temp_of w → temp_of w ≤ 30 →
          heat_sentence ∉ generate_advice_list w s ∧
            cold_sentence ∉ generate_advice_list w s)
      ∧ (rain_sentence ∈ generate_advice_list w s ↔
          (0 < precip_of w ∨ code_of w ∈ ([61, 63, 65, 80, 81, 82] : List Int)))
      ∧ (wind_sentence ∈ generate_advice_list w s ↔ 30 < wind_of w)
      ∧ generate_advice w s = String.intercalate "\n" (generate_advice_list w s))
    ∧ generate_advice_list ⟨some ⟨some 35, none, some 0, some 10, some 0⟩, none⟩
        brown_earth_profile
      = [soil_type_sentence brown_earth_profile, heat_sentence,
         crops_sentence brown_earth_profile, fertility_sentence brown_earth_profile]
    ∧ generate_advice ⟨some ⟨some 35, none, some 0, some 10, some 0⟩, none⟩
        brown_earth_profile
      = soil_type_sentence brown_earth_profile ++ "\n" ++ heat_sentence ++ "\n" ++
        crops_sentence brown_earth_profile ++ "\n" ++ fertility_sentence brown_earth_profile
    ∧ cold_sentence ∈ generate_advice_list
        ⟨some ⟨some 5, none, some 0, some 0, some 65⟩, none⟩ subtropical_profile
    ∧ rain_sentence ∈ generate_advice_list
        ⟨some ⟨some 5, none, some 0, some 0, some 65⟩, none⟩ subtropical_profile := by
  refine ⟨?_, by decide, by decide, by decide, by decide⟩
  intro w s
  refine ⟨heat_mem_iff w s, cold_mem_iff w s, ?_, ?_, rain_mem_iff w s,
    wind_mem_iff w s, rfl⟩
  · rintro ⟨h₁, h₂⟩
    rw [heat_mem_iff] at h₁
    rw [cold_mem_iff] at h₂
    linarith
  · intro h₁ h₂
    constructor
    · rw [heat_mem_iff]
      exact not_lt.2 h₂
    · rw [cold_mem_iff]
      exact not_lt.2 h₁

/-- C5 witness: at temperature 20 neither the heat nor the cold sentence
appears, via `c5_compose_rule_order`. -/
theorem c5_compose_rule_order_witness :
    heat_sentence ∉ generate_advice_list
      ⟨some ⟨some 20, none, some 0, some 0, some 0⟩, none⟩ tundra_profile :=
  ((c5_compose_rule_order.1 ⟨some ⟨some 20, none, some 0, some 0, some 0⟩, none⟩
      tundra_profile).2.2.2.1 (by decide) (by decide)).1

/-- C7: for every weather input and every soil profile the advice list
contains the unconditional soil-type, best-crop-strategy and fertility
sentences, so the rule-8 "stable conditions" fallback is unreachable and
its sentence never appears in any output. -/
theorem c7_fallback_unreachable :
    ∀ (w : WeatherRaw) (s : SoilProfile),
      soil_type_sentence s ∈ generate_advice_list w s
      ∧ crops_sentence s ∈ generate_advice_list w s
      ∧ fertility_sentence s ∈ generate_advice_list w s
      ∧ stable_sentence ∉ generate_advice_list w s :=
  fun w s =>
    ⟨soil_type_sentence_mem w s, crops_sentence_mem w s, fertility_sentence_mem w s,
     stable_not_mem w s⟩

/-- C7 witness: instantiation of `c7_fallback_unreachable` at a concrete
weather input and profile. -/
theorem c7_fallback_unreachable_witness :
    stable_sentence ∉ generate_advice_list ⟨none, none⟩ tundra_profile :=
  (c7_fallback_unreachable ⟨none, none⟩ tundra_profile).2.2.2

set_option maxRecDepth 8000 in
/-- C10: the erosion-warning condition of the composer (soil type has
"Lateritic Soil" as a substring, or erosion descriptor equals "High")
holds for a profile produced by `predict_soil_characteristics` iff that
profile is the Lateritic one; in particular the "Medium to High"
descriptor of the Red and Yellow profile does not trigger the warning. -/
theorem c10_erosion_trigger :
    ∀ (w : WeatherRaw) (lat : ℚ) (zone : String),
      (erosion_sentence ∈ generate_advice_list w (predict_soil_characteristics lat zone)
        ↔ predict_soil_characteristics lat zone = lateritic_profile)
      ∧ ¬(strHasSub red_yellow_profile.type "Lateritic Soil" = true
          ∨ red_yellow_profile.erosion = "High")
      ∧ erosion_sentence ∉ generate_advice_list w red_yellow_profile := by
  intro w lat zone
  have hcases : predict_soil_characteristics lat zone = lateritic_profile
      ∨ predict_soil_characteristics lat zone = red_yellow_profile
      ∨ predict_soil_characteristics lat zone = subtropical_profile
      ∨ predict_soil_characteristics lat zone = brown_earth_profile
      ∨ predict_soil_characteristics lat zone = tundra_profile := by
    simp only [predict_soil_characteristics]
    split_ifs <;> tauto
  refine ⟨?_, by decide, ?_⟩
  · rcases hcases with h | h | h | h | h <;> rw [h, erosion_mem_iff] <;> decide
  · rw [erosion_mem_iff]
    decide

/-- C10 witness: the Lateritic profile does trigger the erosion warning,
via `c10_erosion_trigger`. -/
theorem c10_erosion_trigger_witness :
    erosion_sentence ∈ generate_advice_list ⟨none, none⟩
      (predict_soil_characteristics 10 "tropical rainforest") :=
  (c10_erosion_trigger ⟨none, none⟩ 10 "tropical rainforest").1.mpr
    (by norm_num [predict_soil_characteristics]; decide)

/-- C1 counterexample: a successful weather response whose `daily` object
is present and maps `"temperature_2m_max"` to an empty array does not
yield 0 — the indexing `[0]` on the empty list raises (modelled as
`none`), and the pipeline aborts with an uncaught `IndexError` instead of
proceeding. -/
theorem c1_empty_array_counterexample :
    extract_daily_value ⟨none, some [("temperature_2m_max", [])]⟩ "temperature_2m_max"
      = none
    ∧ get_agricultural_recommendation "Pune"
        (.ok ⟨some [⟨18, 73, "Pune", some "India", some "Maharashtra"⟩]⟩)
        (.ok ⟨none, some [("temperature_2m_max", [])]⟩)
      = .raised "IndexError: list index out of range" :=
  ⟨by decide, by decide⟩

/-- C1 (amended): the daily extraction defaults to 0 when the `daily`
object is absent, when it is present but empty (falsy), and when it is
non-empty but lacks the key (the `[0]` default list); when the key is
present with a non-empty array the first element is returned; but when
the key is present with an empty array the indexing raises instead of
defaulting to 0. -/
theorem c1_daily_extraction_amended :
    ∀ (c : Option CurrentBlock) (k : String) (d : List (String × List ℚ)) (x : ℚ)
      (xs : List ℚ),
      extract_daily_value ⟨c, none⟩ k = some 0
      ∧ extract_daily_value ⟨c, some []⟩ k = some 0
      ∧ (d ≠ [] → d.lookup k = none → extract_daily_value ⟨c, some d⟩ k = some 0)
      ∧ (d.lookup k = some (x :: xs) → extract_daily_value ⟨c, some d⟩ k = some x)
      ∧ (d.lookup k = some [] → extract_daily_value ⟨c, some d⟩ k = none) := by
  intro c k d x xs
  refine ⟨rfl, rfl, ?_, ?_, ?_⟩
  · intro h₁ h₂
    simp [extract_daily_value, h₁, h₂]
  · intro h
    have hd : d ≠ [] := by
      rintro rfl
      simp [List.lookup] at h
    simp [extract_daily_value, hd, h]
  · intro h
    have hd : d ≠ [] := by
      rintro rfl
      simp [List.lookup] at h
    simp [extract_daily_value, hd, h]

/-- C1 witness: instantiations of `c1_daily_extraction_amended` with the
key missing and with the key holding a one-element array. -/
theorem c1_daily_extraction_witness :
    extract_daily_value ⟨none, some [("precipitation_sum", [2])]⟩ "temperature_2m_max"
      = some 0
    ∧ extract_daily_value ⟨none, some [("temperature_2m_max", [31])]⟩ "temperature_2m_max"
      = some 31 :=
  ⟨(c1_daily_extraction_amended none "temperature_2m_max" [("precipitation_sum", [2])]
      0 []).2.2.1 (by decide) (by decide),
   (c1_daily_extraction_amended none "temperature_2m_max" [("temperature_2m_max", [31])]
      31 []).2.2.2.1 (by decide)⟩

/-- C2 counterexample: a transport failure and a zero-results response
produce *identical* outcomes — `get_coordinates` collapses both to
`None`, and the pipeline emits the same "Could not find location"
error for both, so no distinct `TransportError` carrying the underlying
cause exists and the message does not reflect which kind occurred. -/
theorem c2_indistinguishable_counterexample :
    get_coordinates (.error "Connection timed out") = get_coordinates (.ok ⟨some []⟩)
    ∧ get_agricultural_recommendation "Pune" (.error "Connection timed out")
        (.error "unreached")
      = .errorResult "Could not find location: Pune"
    ∧ get_agricultural_recommendation "Pune" (.ok ⟨some []⟩) (.error "unreached")
      = .errorResult "Could not find location: Pune" :=
  ⟨rfl, rfl, rfl⟩

/-- C2 (amended): `get_coordinates` returns `None` both when the endpoint
returns zero (or no) results and on any transport/parsing failure,
discarding the cause; the pipeline short-circuits every `None` into the
single structured error result `"Could not find location: <location>"`
(not a crash), without distinguishing the two failure kinds. -/
theorem c2_geocode_failure_amended :
    ∀ (loc cause : String) (r : GeoResult) (rs : List GeoResult)
      (wresp : HttpOutcome WeatherRaw),
      get_coordinates (.error cause) = none
      ∧ get_coordinates (.ok ⟨some []⟩) = none
      ∧ get_coordinates (.ok ⟨none⟩) = none
      ∧ get_coordinates (.ok ⟨some (r :: rs)⟩)
          = some (r.latitude, r.longitude, full_name r)
      ∧ get_agricultural_recommendation loc (.error cause) wresp
          = .errorResult ("Could not find location: " ++ loc)
      ∧ get_agricultural_recommendation loc (.ok ⟨some []⟩) wresp
          = .errorResult ("Could not find location: " ++ loc) :=
  fun _ _ _ _ _ => ⟨rfl, rfl, rfl, rfl, rfl, rfl⟩

/-- C2 witness: instantiation of `c2_geocode_failure_amended` at a
concrete location, cause and result row. -/
theorem c2_geocode_failure_witness :
    get_coordinates (.ok ⟨some [⟨18, 73, "Pune", some "India", some "Maharashtra"⟩]⟩)
      = some (18, 73, "Pune, Maharashtra, India") :=
  (c2_geocode_failure_amended "Pune" "timeout"
      ⟨18, 73, "Pune", some "India", some "Maharashtra"⟩ [] (.error "x")).2.2.2.1.trans
    (by decide)

set_option maxRecDepth 8000 in
/-- C8 counterexample: a weather dict whose `current` block exists but
lacks only `temperature_2m` does *not* have its other fields treated
as 0 — with precipitation 5 and wind 40 present, the rainfall and wind
sentences do appear, contradicting the claim that they never do. -/
theorem c8_partial_current_counterexample :
    (⟨none, none, some 5, some 40, none⟩ : CurrentBlock).temperature_2m = none
    ∧ rain_sentence ∈ generate_advice_list
        ⟨some ⟨none, none, some 5, some 40, none⟩, none⟩ tundra_profile
    ∧ wind_sentence ∈ generate_advice_list
        ⟨some ⟨none, none, some 5, some 40, none⟩, none⟩ tundra_profile :=
  ⟨rfl, by decide, by decide⟩

/-- C8 (amended): when the whole `current` block is missing, all four
readings default to 0, so the cold-protection sentence always appears
and the heat, rainfall and wind sentences never do; when `current`
exists but lacks only `temperature_2m`, the temperature alone defaults
to 0 (cold sentence present, heat sentence absent) while the rainfall
and wind sentences follow their own fields. -/
theorem c8_missing_current_amended :
    ∀ (w : WeatherRaw) (s : SoilProfile) (c : CurrentBlock),
      (w.current = none →
        cold_sentence ∈ generate_advice_list w s
        ∧ heat_sentence ∉ generate_advice_list w s
        ∧ rain_sentence ∉ generate_advice_list w s
        ∧ wind_sentence ∉ generate_advice_list w s)
      ∧ (w.current = some c → c.temperature_2m = none →
        cold_sentence ∈ generate_advice_list w s
        ∧ heat_sentence ∉ generate_advice_list w s) := by
  intro w s c
  constructor
  · intro h
    have ht : temp_of w = 0 := by simp [temp_of, current_of, h, CurrentBlock.empty]
    have hp : precip_of w = 0 := by simp [precip_of, current_of, h, CurrentBlock.empty]
    have hw : wind_of w = 0 := by simp [wind_of, current_of, h, CurrentBlock.empty]
    have hc : code_of w = 0 := by simp [code_of, current_of, h, CurrentBlock.empty]
    refine ⟨?_, ?_, ?_, ?_⟩
    · rw [cold_mem_iff, ht]
      norm_num
    · rw [heat_mem_iff, ht]
      norm_num
    · rw [rain_mem_iff, hp, hc]
      decide
    · rw [wind_mem_iff, hw]
      norm_num
  · intro h h₂
    have ht : temp_of w = 0 := by simp [temp_of, current_of, h, h₂]
    exact ⟨by rw [cold_mem_iff, ht]; norm_num, by rw [heat_mem_iff, ht]; norm_num⟩

/-- C8 witness: instantiation of `c8_missing_current_amended` at a
weather dict with no `current` block. -/
theorem c8_missing_current_witness :
    cold_sentence ∈ generate_advice_list ⟨none, none⟩ brown_earth_profile
    ∧ heat_sentence ∉ generate_advice_list ⟨none, none⟩ brown_earth_profile :=
  ⟨((c8_missing_current_amended ⟨none, none⟩ brown_earth_profile
      CurrentBlock.empty).1 rfl).1,
   ((c8_missing_current_amended ⟨none, none⟩ brown_earth_profile
      CurrentBlock.empty).1 rfl).2.1⟩

/-- C9: in the report's current-weather summary, a missing
`weather_code` defaults to 0, so the condition reads `"Clear sky"` (the
label of code 0), not `"Unknown"` or `"N/A"`; missing temperature,
humidity and wind speed default to the string `"N/A"`, and missing
precipitation defaults to 0. -/
theorem c9_summary_defaults :
    ∀ (raw : WeatherRaw) (c : CurrentBlock), raw.current = some c →
      (c.weather_code = none →
        (extract_summary raw).condition = "Clear sky"
        ∧ interpret_weather_code 0 = "Clear sky"
        ∧ "Clear sky" ≠ "Unknown" ∧ "Clear sky" ≠ "N/A")
      ∧ (c.temperature_2m = none → (extract_summary raw).temperature = SVal.str "N/A")
      ∧ (c.relative_humidity_2m = none → (extract_summary raw).humidity = SVal.str "N/A")
      ∧ (c.wind_speed_10m = none → (extract_summary raw).wind_speed = SVal.str "N/A")
      ∧ (c.precipitation = none → (extract_summary raw).precipitation = 0) := by
  intro raw c h
  refine ⟨fun h₂ => ⟨?_, by decide, by decide, by decide⟩, fun h₂ => ?_, fun h₂ => ?_,
    fun h₂ => ?_, fun h₂ => ?_⟩ <;>
    simp [extract_summary, current_of, h, h₂] <;> decide

/-- C9 witness: instantiation of `c9_summary_defaults` at an entirely
empty `current` block. -/
theorem c9_summary_defaults_witness :
    (extract_summary ⟨some CurrentBlock.empty, none⟩).condition = "Clear sky"
    ∧ (extract_summary ⟨some CurrentBlock.empty, none⟩).temperature = SVal.str "N/A"
    ∧ (extract_summary ⟨some CurrentBlock.empty, none⟩).precipitation = 0 :=
  ⟨((c9_summary_defaults ⟨some CurrentBlock.empty, none⟩ CurrentBlock.empty rfl).1 rfl).1,
   (c9_summary_defaults ⟨some CurrentBlock.empty, none⟩ CurrentBlock.empty rfl).2.1 rfl,
   (c9_summary_defaults ⟨some CurrentBlock.empty, none⟩ CurrentBlock.empty rfl).2.2.2.2 rfl⟩

end KisaanMitra
